import Mathlib

/-!
Shallow embedding of the Rockchip RGA frame-processing and async-pipelining
engine (`libavfilter/rkrga_common.c` of ffmpeg-rockchip), together with
theorems settling the specification claims about it.

Modelling conventions:
* C `int` values (sizes, strides, offsets) are `Int`; bitmask registers
  (`scheduler_core`, blend modes) are `Nat` with `&&&`/`|||`/`<<<`.
* The C code computes scale ratios in 32-bit `float`; the model uses exact
  rationals (`ℚ`).  For the integer ranges accepted by the validator
  (widths/heights of a few thousand pixels) the float comparisons against
  0.125/8.0/16.0 agree with the exact rational comparisons.
* Fallible C functions returning negative `AVERROR` codes are modelled with
  `Except RgaErr`.
-/

namespace RKRGA

/-- Error outcomes of the engine, mirroring the `AVERROR` codes actually
returned by `rkrga_common.c` (`ENOSYS`, `EINVAL`, `ENOMEM`,
`AVERROR_EXTERNAL`, and a failure code propagated from the downstream
`filter_frame` callback). -/
inductive RgaErr where
  | ENOSYS
  | EINVAL
  | ENOMEM
  | EXTERNAL
  | downstream
deriving DecidableEq, Repr

/-- The `AVPixelFormat` values appearing in the two RGA format tables
(`supported_formats_main` / `supported_formats_overlay`). -/
inductive AVPixelFormat where
  | GRAY8 | YUV420P | YUVJ420P | YUV422P | YUVJ422P
  | NV12 | NV21 | NV16 | NV24 | NV42
  | P010 | P210 | NV15 | NV20
  | YUYV422 | YVYU422 | UYVY422
  | RGB555LE | BGR555LE | RGB565LE | BGR565LE
  | RGB24 | BGR24
  | RGBA | RGB0 | BGRA | BGR0
  | ARGB | ZRGB | ABGR | ZBGR
deriving DecidableEq, Repr

/-- The `_Rga_SURF_FORMAT` codes appearing in the format tables of
`rkrga_common.c`. -/
inductive RgaSurfFormat where
  | YCbCr_400
  | YCbCr_420_P | YCbCr_422_P
  | YCbCr_420_SP | YCrCb_420_SP | YCbCr_422_SP
  | YCbCr_444_SP | YCrCb_444_SP
  | YCbCr_420_SP_10B | YCbCr_422_SP_10B
  | YUYV_422 | YVYU_422 | UYVY_422
  | BGRA_5551 | RGBA_5551
  | BGR_565 | RGB_565
  | RGB_888 | BGR_888
  | RGBA_8888 | BGRA_8888 | ARGB_8888 | ABGR_8888
deriving DecidableEq, Repr

open AVPixelFormat RgaSurfFormat

/-- `AV_PIX_FMT_FLAG_RGB` of the pixel-format descriptor, for the formats in
the tables (per FFmpeg's `pixdesc`). -/
def isRgbFmt : AVPixelFormat → Bool
  | RGB555LE | BGR555LE | RGB565LE | BGR565LE
  | RGB24 | BGR24 | RGBA | RGB0 | BGRA | BGR0
  | ARGB | ZRGB | ABGR | ZBGR => true
  | _ => false

/-- `AV_PIX_FMT_FLAG_ALPHA` of the pixel-format descriptor, for the formats
in the tables (per FFmpeg's `pixdesc`). -/
def hasAlphaFmt : AVPixelFormat → Bool
  | RGBA | BGRA | ARGB | ABGR => true
  | _ => false

/-- `pix_desc->comp[0].depth`, for the formats in the tables (per FFmpeg's
`pixdesc`). -/
def compDepth : AVPixelFormat → Nat
  | P010 | P210 | NV15 | NV20 => 10
  | RGB555LE | BGR555LE | RGB565LE | BGR565LE => 5
  | _ => 8

/-- `supported_formats_main` (the `YUV_FORMATS` followed by the
`RGB_FORMATS` table rows, in source order). -/
def supported_formats_main : List (AVPixelFormat × RgaSurfFormat) :=
  [ (GRAY8,    YCbCr_400),
    (YUV420P,  YCbCr_420_P),
    (YUVJ420P, YCbCr_420_P),
    (YUV422P,  YCbCr_422_P),
    (YUVJ422P, YCbCr_422_P),
    (NV12,     YCbCr_420_SP),
    (NV21,     YCrCb_420_SP),
    (NV16,     YCbCr_422_SP),
    (NV24,     YCbCr_444_SP),
    (NV42,     YCrCb_444_SP),
    (P010,     YCbCr_420_SP_10B),
    (P210,     YCbCr_422_SP_10B),
    (NV15,     YCbCr_420_SP_10B),
    (NV20,     YCbCr_422_SP_10B),
    (YUYV422,  YUYV_422),
    (YVYU422,  YVYU_422),
    (UYVY422,  UYVY_422),
    (RGB555LE, BGRA_5551),
    (BGR555LE, RGBA_5551),
    (RGB565LE, BGR_565),
    (BGR565LE, RGB_565),
    (RGB24,    RGB_888),
    (BGR24,    BGR_888),
    (RGBA,     RGBA_8888),
    (RGB0,     RGBA_8888),
    (BGRA,     BGRA_8888),
    (BGR0,     BGRA_8888),
    (ARGB,     ARGB_8888),
    (ZRGB,     ARGB_8888),
    (ABGR,     ABGR_8888),
    (ZBGR,     ABGR_8888) ]

/-- `supported_formats_overlay` (the `RGB_FORMATS` table rows only). -/
def supported_formats_overlay : List (AVPixelFormat × RgaSurfFormat) :=
  [ (RGB555LE, BGRA_5551),
    (BGR555LE, RGBA_5551),
    (RGB565LE, BGR_565),
    (BGR565LE, RGB_565),
    (RGB24,    RGB_888),
    (BGR24,    BGR_888),
    (RGBA,     RGBA_8888),
    (RGB0,     RGBA_8888),
    (BGRA,     BGRA_8888),
    (BGR0,     BGRA_8888),
    (ARGB,     ARGB_8888),
    (ZRGB,     ARGB_8888),
    (ABGR,     ABGR_8888),
    (ZBGR,     ABGR_8888) ]

/-- `map_av_to_rga_format`: linear scan of the selected table; `none`
models the function returning 0 (format not found). -/
def map_av_to_rga_format (in_format : AVPixelFormat) (is_overlay : Bool) :
    Option RgaSurfFormat :=
  ((if is_overlay then supported_formats_overlay else supported_formats_main).find?
    (fun p => p.1 = in_format)).map (·.2)

/-- `is_pixel_stride_rga3_compat`: per-format divisibility requirement of
the RGA3 unit on the derived pixel stride `ws` and row count `hs`. -/
def is_pixel_stride_rga3_compat (ws hs : Int) (fmt : RgaSurfFormat) : Bool :=
  match fmt with
  | YCbCr_420_SP | YCrCb_420_SP | YCbCr_422_SP => ws % 16 = 0 ∧ hs % 2 = 0
  | YCbCr_420_SP_10B | YCbCr_422_SP_10B => ws % 64 = 0 ∧ hs % 2 = 0
  | YUYV_422 | YVYU_422 | UYVY_422 => ws % 8 = 0 ∧ hs % 2 = 0
  | RGB_565 | BGR_565 => ws % 8 = 0
  | RGB_888 | BGR_888 => ws % 16 = 0
  | RGBA_8888 | BGRA_8888 | ARGB_8888 | ABGR_8888 => ws % 4 = 0
  | _ => false

/-- One `RGAFrameInfo` record (per input/output pad), with the fields the
validator and the per-frame paths read.  `bytes_pp`/`pix_desc` are replaced
by the per-format functions above; `act_*` are the active rectangle. -/
structure RGAFrameInfo where
  rga_fmt : RgaSurfFormat
  pix_fmt : AVPixelFormat
  act_x : Int
  act_y : Int
  act_w : Int
  act_h : Int
  uncompact_10b_msb : Bool
  rotate_mode : Int
  blend_mode : Nat
  crop : Bool
  scheduler_core : Nat
  overlay_x : Int
  overlay_y : Int
deriving DecidableEq, Repr

/-- The capability booleans derived once from the driver version string. -/
structure RgaCaps where
  has_rga2 : Bool
  has_rga2l : Bool
  has_rga2e : Bool
  has_rga2p : Bool
  has_rga3 : Bool
deriving DecidableEq, Repr

/-- `verify_rga_frame_info_io_dynamic`: the dynamic legacy-vs-modern size
and format limits.  `used` is the caller's `r->is_rga2_used`. -/
def verify_rga_frame_info_io_dynamic (caps : RgaCaps) (used : Bool)
    (inI outI : RGAFrameInfo) : Except RgaErr Unit :=
  if used ∧ ¬caps.has_rga2 then .error .ENOSYS
  else if used ∧ (inI.pix_fmt = P010 ∨ outI.pix_fmt = P010) then .error .ENOSYS
  else if used ∧ (inI.pix_fmt = P210 ∨ outI.pix_fmt = P210) then .error .ENOSYS
  else if used ∧ (outI.pix_fmt = NV15 ∨ outI.pix_fmt = NV20) then .error .ENOSYS
  else if ¬caps.has_rga2p ∧ used ∧ inI.crop ∧ 10 ≤ compDepth inI.pix_fmt then .error .ENOSYS
  else if used ∧ ¬caps.has_rga2p ∧ (outI.act_w > 4096 ∨ outI.act_h > 4096) then .error .EINVAL
  else if ¬used ∧ (inI.act_w < 68 ∨ inI.act_h < 2) then .error .EINVAL
  else if ¬used ∧ (outI.act_w > 8128 ∨ outI.act_h > 8128) then .error .EINVAL
  else .ok ()

/-- Membership in the list of input formats only supported by RGA2
(lines guarded by `!r->has_rga2` on the source side). -/
def rga2OnlyInputFmt (f : AVPixelFormat) : Prop :=
  f = GRAY8 ∨ f = YUV420P ∨ f = YUVJ420P ∨ f = YUV422P ∨ f = YUVJ422P ∨
  f = RGB555LE ∨ f = BGR555LE

/-- Membership in the list of output formats only supported by RGA2
(the input list plus `ARGB/0RGB/ABGR/0BGR`). -/
def rga2OnlyOutputFmt (f : AVPixelFormat) : Prop :=
  rga2OnlyInputFmt f ∨ f = ARGB ∨ f = ZRGB ∨ f = ABGR ∨ f = ZBGR

instance (f : AVPixelFormat) : Decidable (rga2OnlyInputFmt f) := by
  unfold rga2OnlyInputFmt; infer_instance

instance (f : AVPixelFormat) : Decidable (rga2OnlyOutputFmt f) := by
  unfold rga2OnlyOutputFmt; infer_instance

/-- The source-format membership test of the `r->is_rga2_used = 1` block of
`verify_rga_frame_info` (input list plus `NV24/NV42`). -/
def forcesRga2AsSrc (f : AVPixelFormat) : Prop :=
  rga2OnlyInputFmt f ∨ f = NV24 ∨ f = NV42

/-- The destination-format membership test of the `r->is_rga2_used = 1`
block of `verify_rga_frame_info` (output list plus `NV24/NV42`). -/
def forcesRga2AsDst (f : AVPixelFormat) : Prop :=
  rga2OnlyOutputFmt f ∨ f = NV24 ∨ f = NV42

instance (f : AVPixelFormat) : Decidable (forcesRga2AsSrc f) := by
  unfold forcesRga2AsSrc; infer_instance

instance (f : AVPixelFormat) : Decidable (forcesRga2AsDst f) := by
  unfold forcesRga2AsDst; infer_instance

/-- The pattern-input envelope test of `verify_rga_frame_info` (only
performed when composing, i.e. when a pattern info is present). -/
def patOutsideRga3 : Option RGAFrameInfo → Prop
  | some p => p.act_w < 68 ∨ p.act_w > 8176 ∨ p.act_h > 8176
  | none => False

instance (pat : Option RGAFrameInfo) : Decidable (patOutsideRga3 pat) := by
  unfold patOutsideRga3; cases pat <;> infer_instance

/-- `scale_ratio_w`: the width ratio `(float)dst->act_w / (float)src->act_w`,
modelled exactly over `ℚ`. -/
def ratioW (src dst : RGAFrameInfo) : ℚ :=
  (dst.act_w : ℚ) / (src.act_w : ℚ)

/-- `scale_ratio_h`: the height ratio `(float)dst->act_h / (float)src->act_h`,
modelled exactly over `ℚ`. -/
def ratioH (src dst : RGAFrameInfo) : ℚ :=
  (dst.act_h : ℚ) / (src.act_h : ℚ)

/-- The final scale-ratio bound of `verify_rga_frame_info`: 8.0 under the
three-way disjunction of the source, 16.0 otherwise.  `used` and `sc` are
`r->is_rga2_used` and `r->scheduler_core` as they stand at that point. -/
def scaleRatioMax (caps : RgaCaps) (used : Bool) (sc : Nat) : ℚ :=
  if (used ∧ caps.has_rga2l) ∨
     (¬used ∧ caps.has_rga3 ∧ ¬caps.has_rga2) ∨
     (0 < sc ∧ sc = sc &&& 0x3) then 8 else 16

/-- The concluding min/max scale-ratio rejection of `verify_rga_frame_info`;
on success it returns the resolved `(is_rga2_used, scheduler_core)` pair. -/
def verifyScaleEnvelope (caps : RgaCaps) (used : Bool) (sc : Nat)
    (srw srh : ℚ) : Except RgaErr (Bool × Nat) :=
  let m := scaleRatioMax caps used sc
  if srw < 1 / m ∨ srw > m ∨ srh < 1 / m ∨ srh > m then .error .EINVAL
  else .ok (used, sc)

/-- The `r->is_rga2_used` accumulation of `verify_rga_frame_info`: the
legacy-format membership test, the `!has_rga3` fold, and the RGA3
ratio/size/pattern envelope fallbacks. -/
def verifyRga2Fallback (caps : RgaCaps) (used0 : Bool)
    (src dst : RGAFrameInfo) (pat : Option RGAFrameInfo) (srw srh : ℚ) : Bool :=
  let u1 : Bool := used0 ∨ forcesRga2AsSrc src.pix_fmt ∨ forcesRga2AsDst dst.pix_fmt
  let u2 : Bool := u1 ∨ ¬caps.has_rga3
  let u3 : Bool := if caps.has_rga3 ∧
      (srw < 1/8 ∨ srw > 8 ∨ srh < 1/8 ∨ srh > 8) then true else u2
  let u4 : Bool := if caps.has_rga3 ∧
      (src.act_w < 68 ∨ src.act_w > 8176 ∨ src.act_h > 8176 ∨ dst.act_w < 68)
    then true else u3
  if caps.has_rga3 ∧ patOutsideRga3 pat then true else u4

/-- The scheduler-core resolution of `verify_rga_frame_info`: the rewrite
to the RGA2 core mask when the legacy unit is required, then the
"prioritize RGA3 on multicore hw" widening to 0x3. -/
def verifyResolveCore (caps : RgaCaps) (sc0 : Nat) (used : Bool)
    (nbInputs : Nat) (src dst : RGAFrameInfo) (srw srh : ℚ) : Nat :=
  let sc1 : Nat := if used then (if caps.has_rga2p then 0x4 ||| 0x8 else 0x4) else sc0
  if caps.has_rga3 ∧ caps.has_rga2e ∧ ¬used ∧
      (sc1 = 0 ∨ 1 < nbInputs ∨ srw ≠ 1 ∨ srh ≠ 1 ∨
       src.crop ∨ src.uncompact_10b_msb ∨ dst.uncompact_10b_msb)
    then 0x3 else sc1

/-- `verify_rga_frame_info`: the configuration-time constraint validator.
Takes the capability set, the scheduler core and `is_rga2_used` as they
stand on entry (`sc0`, `used0`), `avctx->nb_inputs`, and the resolved frame
infos; returns the updated `(is_rga2_used, scheduler_core)` or the error the
source returns. -/
def verify_rga_frame_info (caps : RgaCaps) (sc0 : Nat) (used0 : Bool)
    (nbInputs : Nat) (src dst : RGAFrameInfo) (pat : Option RGAFrameInfo) :
    Except RgaErr (Bool × Nat) :=
  let srw := ratioW src dst
  let srh := ratioH src dst
  if ¬caps.has_rga3 ∧ (src.pix_fmt = P010 ∨ dst.pix_fmt = P010) then .error .ENOSYS
  else if ¬caps.has_rga3 ∧ (src.pix_fmt = P210 ∨ dst.pix_fmt = P210) then .error .ENOSYS
  else if ¬caps.has_rga2p ∧ (src.pix_fmt = NV24 ∨ src.pix_fmt = NV42 ∨
          dst.pix_fmt = NV24 ∨ dst.pix_fmt = NV42) then .error .ENOSYS
  else if ¬caps.has_rga2 ∧ rga2OnlyInputFmt src.pix_fmt then .error .ENOSYS
  else if ¬caps.has_rga2 ∧ rga2OnlyOutputFmt dst.pix_fmt then .error .ENOSYS
  else if (dst.pix_fmt = YUVJ420P ∨ dst.pix_fmt = YUVJ422P) ∧
          ¬(src.pix_fmt = YUVJ420P ∨ src.pix_fmt = YUVJ422P) then .error .ENOSYS
  else if (src.pix_fmt = P010 ∨ src.pix_fmt = P210) ∧
          rga2OnlyOutputFmt dst.pix_fmt then .error .ENOSYS
  else if (dst.pix_fmt = P010 ∨ dst.pix_fmt = P210) ∧
          rga2OnlyInputFmt src.pix_fmt then .error .ENOSYS
  else
    match verify_rga_frame_info_io_dynamic caps
        (verifyRga2Fallback caps used0 src dst pat srw srh) src dst with
    | .error e => .error e
    | .ok _ =>
      verifyScaleEnvelope caps
        (verifyRga2Fallback caps used0 src dst pat srw srh)
        (verifyResolveCore caps sc0
          (verifyRga2Fallback caps used0 src dst pat srw srh)
          nbInputs src dst srw srh)
        srw srh

/-- Whether `needle` is an initial segment of `hay` (helper for `strstr`). -/
def leadsWith : List Char → List Char → Bool
  | [], _ => true
  | _ :: _, [] => false
  | a :: as, b :: bs => a = b ∧ leadsWith as bs

/-- `strstr(hay, needle) != NULL`: `needle` occurs somewhere in `hay`. -/
def containsSub (needle : List Char) : List Char → Bool
  | [] => leadsWith needle []
  | c :: rest => leadsWith needle (c :: rest) ∨ containsSub needle rest

/-- The capability detection of `ff_rkrga_init`: substring probes of the
driver version string returned by `querystring(RGA_VERSION)`. -/
def detectRgaCaps (rga_ver : String) : RgaCaps :=
  { has_rga2  := containsSub "RGA_2".data rga_ver.data
    has_rga2l := containsSub "RGA_2_lite".data rga_ver.data
    has_rga2e := containsSub "RGA_2_Enhance".data rga_ver.data
    has_rga2p := containsSub "RGA_2_PRO".data rga_ver.data
    has_rga3  := containsSub "RGA_3".data rga_ver.data }

/-- `ALIGN_DOWN(a, b)` for a power-of-two `b`: the source computes
`a & ~(b-1)`, which on two's-complement ints equals flooring division
times `b`. -/
def alignDown (a b : Int) : Int := b * Int.fdiv a b

/-- `RK_RGA_YUV_ALIGN`. -/
def RK_RGA_YUV_ALIGN : Int := 2

/-- One negotiated filter link (pad): dimensions, software format, and
whether the link carries `AV_PIX_FMT_DRM_PRIME` frames. -/
structure RGALink where
  w : Int
  h : Int
  sw_format : AVPixelFormat
  format_drm : Bool
deriving DecidableEq, Repr

/-- `fill_rga_frame_info_by_link`: builds the `RGAFrameInfo` of one pad and
threads `r->async_depth` through (the source clamps it to at most 1 for pads
larger than `3840*2160*3` pixels).  Returns the info and the updated
`async_depth`. -/
def fill_rga_frame_info_by_link (depth : Nat) (link : RGALink)
    (nb_link : Nat) (is_inlink : Bool) : Except RgaErr (RGAFrameInfo × Nat) :=
  if ¬link.format_drm then .error .EINVAL
  else match map_av_to_rga_format link.sw_format (is_inlink ∧ 0 < nb_link) with
  | none => .error .ENOSYS
  | some rfmt =>
    let aw := if ¬isRgbFmt link.sw_format then alignDown link.w RK_RGA_YUV_ALIGN else link.w
    let ah := if ¬isRgbFmt link.sw_format then alignDown link.h RK_RGA_YUV_ALIGN else link.h
    let info : RGAFrameInfo :=
      { rga_fmt := rfmt
        pix_fmt := link.sw_format
        act_x := 0, act_y := 0, act_w := aw, act_h := ah
        uncompact_10b_msb := link.sw_format = P010 ∨ link.sw_format = P210
        rotate_mode := 0, blend_mode := 0, crop := false
        scheduler_core := 0, overlay_x := 0, overlay_y := 0 }
    let depth' := if link.w * link.h > 3840 * 2160 * 3 then min depth 1 else depth
    .ok (info, depth')

/-- The `RKRGAParam` options handed to `ff_rkrga_init` by the two filters. -/
structure RKRGAParamM where
  in_rotate_mode : Int
  in_global_alpha : Nat
  in_crop : Bool
  in_crop_x : Int
  in_crop_y : Int
  in_crop_w : Int
  in_crop_h : Int
  overlay_x : Int
  overlay_y : Int
deriving DecidableEq, Repr

/-- The global-alpha blend-mode computation of `ff_rkrga_init`
(`IM_ALPHA_BLEND_DST_OVER`): `premult` is the overlay format's
`AV_PIX_FMT_FLAG_ALPHA` bit; `alpha` is `param->in_global_alpha`
(option range 0–255). -/
def computeBlendMode (premult : Bool) (alpha : Nat) : Nat :=
  if 0 < alpha ∧ alpha < 0xff then
    (if premult then 0x4 ||| (1 <<< 12) else 0x4) |||
      ((alpha &&& 0xff) <<< 16) ||| (0xff <<< 24)
  else if premult then 0x504 else 0x501

/-- The overlay-offset fragment of `ff_rkrga_init`: clamps the stored
offsets to be non-negative, and computes `r->is_overlay_offset_valid` from
the unclamped requested offsets against the primary's active area. -/
def initOverlaySetup (in0 in1 : RGAFrameInfo) (p : RKRGAParamM) :
    RGAFrameInfo × Bool :=
  ({ in1 with overlay_x := max p.overlay_x 0, overlay_y := max p.overlay_y 0 },
   decide (p.overlay_x < in0.act_w - 2) && decide (p.overlay_y < in0.act_h - 2))

/-- The crop fragment of `ff_rkrga_init` (single-input filter only): aligns
the crop rectangle down to 2 for YUV formats and overrides the active
rectangle. -/
def initApplyCrop (info : RGAFrameInfo) (p : RKRGAParamM) : RGAFrameInfo :=
  if p.in_crop then
    let yuv := ¬isRgbFmt info.pix_fmt
    { info with
      crop := true
      act_x := if yuv then alignDown p.in_crop_x RK_RGA_YUV_ALIGN else p.in_crop_x
      act_y := if yuv then alignDown p.in_crop_y RK_RGA_YUV_ALIGN else p.in_crop_y
      act_w := if yuv then alignDown p.in_crop_w RK_RGA_YUV_ALIGN else p.in_crop_w
      act_h := if yuv then alignDown p.in_crop_h RK_RGA_YUV_ALIGN else p.in_crop_h }
  else info

/-- Everything `ff_rkrga_init` consumes: the driver version string, the
user options (`core`, `async_depth`), the negotiated links, and the
filter-supplied `RKRGAParam`. -/
structure RKRGAInitConfig where
  rga_ver : String
  scheduler_core : Nat
  async_depth : Nat
  nbInputs : Nat
  in0 : RGALink
  in1 : RGALink
  out : RGALink
  param : RKRGAParamM
deriving DecidableEq, Repr

/-- The context state `ff_rkrga_init` leaves behind on success. -/
structure RKRGAInitState where
  caps : RgaCaps
  scheduler_core : Nat
  is_rga2_used : Bool
  async_depth : Nat
  fifoCapacity : Nat
  in0Info : RGAFrameInfo
  in1Info : Option RGAFrameInfo
  outInfo : RGAFrameInfo
  is_overlay_offset_valid : Bool
deriving DecidableEq, Repr

/-- The per-input setup block of `ff_rkrga_init`: rotate/crop handling for
the single-input filter, and blend-mode plus overlay-offset handling for
the two-input filter.  Returns the finished primary info, the finished
overlay info (if any), and `r->is_overlay_offset_valid`. -/
def initInputsSetup (nbInputs : Nat) (p : RKRGAParamM)
    (in0a : RGAFrameInfo) (in1a : Option RGAFrameInfo) :
    RGAFrameInfo × Option RGAFrameInfo × Bool :=
  let in0b := if nbInputs = 1 then
      initApplyCrop { in0a with rotate_mode := p.in_rotate_mode } p
    else in0a
  let premult := match in1a with
    | some i1 => hasAlphaFmt i1.pix_fmt
    | none => false
  let in0c := if 1 < nbInputs then
      { in0b with blend_mode := computeBlendMode premult p.in_global_alpha }
    else in0b
  match in1a with
  | some i1 =>
    let o := initOverlaySetup in0c i1 p
    (in0c, some o.1, o.2)
  | none => (in0c, none, false)

/-- The scheduler-core validation block of `ff_rkrga_init` (warn-and-ignore
of unusable core overrides, and the capability rewrites a pinned core
implies).  Returns the resulting capability set and scheduler core. -/
def initCoreSetup (caps0 : RgaCaps) (core : Nat) : RgaCaps × Nat :=
  let mask : Nat := if caps0.has_rga2p then 0xf else 0x7
  let sc1 := if core ≠ 0 ∧ ¬(caps0.has_rga2 ∧ caps0.has_rga3) ∧
      ¬caps0.has_rga2p then 0 else core
  let sc2 := if sc1 ≠ 0 ∧ sc1 ≠ (sc1 &&& mask) then 0 else sc1
  let caps1 := if sc2 ≠ 0 ∧ sc2 = (sc2 &&& 0x3) then
      { caps0 with has_rga2 := false, has_rga2l := false,
                   has_rga2e := false, has_rga2p := false } else caps0
  let caps2 := if sc2 = 0x4 ∧ ¬caps1.has_rga2p then
      { caps1 with has_rga3 := false } else caps1
  (caps2, sc2)

/-- `ff_rkrga_init`: capability detection, scheduler-core validation, pad
info construction, blend/overlay setup, constraint validation, and FIFO
allocation (`av_fifo_alloc2(r->async_depth + 1, ...)`).  The external
hardware-frames-context allocations are assumed to succeed (they are
host-provided collaborators). -/
def ffRkrgaInit (cfg : RKRGAInitConfig) : Except RgaErr RKRGAInitState :=
  let caps0 := detectRgaCaps cfg.rga_ver
  if ¬(caps0.has_rga2 ∨ caps0.has_rga3) then .error .ENOSYS
  else
    let caps2 := (initCoreSetup caps0 cfg.scheduler_core).1
    let sc2 := (initCoreSetup caps0 cfg.scheduler_core).2
    match fill_rga_frame_info_by_link cfg.async_depth cfg.in0 0 true with
    | .error e => .error e
    | .ok (in0a, depth1) =>
      match (if 1 < cfg.nbInputs then
               (fill_rga_frame_info_by_link depth1 cfg.in1 1 true).map
                 (fun r => (some r.1, r.2))
             else .ok (none, depth1)) with
      | .error e => .error e
      | .ok (in1a, depth2) =>
        match initInputsSetup cfg.nbInputs cfg.param in0a in1a with
        | (in0c, in1b, valid) =>
          match fill_rga_frame_info_by_link depth2 cfg.out 0 false with
          | .error e => .error e
          | .ok (outa, depth3) =>
            match verify_rga_frame_info caps2 sc2 false cfg.nbInputs in0c outa in1b with
            | .error e => .error e
            | .ok (used, scF) =>
              .ok { caps := caps2
                    scheduler_core := scF
                    is_rga2_used := used
                    async_depth := depth3
                    fifoCapacity := depth3 + 1
                    in0Info := in0c
                    in1Info := in1b
                    outInfo := { outa with scheduler_core := scF }
                    is_overlay_offset_valid := valid }

/-! ### The per-frame stride re-validation of `submit_frame`

`submit_frame` derives `w_stride`/`h_stride` from the concrete DRM buffer
layout; the fragment below models lines 466–480 of `rkrga_common.c` (the
"verify inputs pixel stride" block), taking the derived strides as inputs.
It returns the updated `is_rga2_used` flag (written to the context even on
failure) together with either the resulting `out_info->scheduler_core` or
the error that aborts the submission. -/

/-- The stride re-validation block of `submit_frame`: runs only when the
resolved scheduler core exclusively targets RGA3 (`core > 0` and
`core == (core & 0x3)`).  `isAfbc` is `drm_is_afbc(...)` on the frame's
format modifier. -/
def submitFrameStrideFallback (caps : RgaCaps) (used0 : Bool) (outCore : Nat)
    (wStride hStride : Int) (isAfbc : Bool) (inI outI : RGAFrameInfo) :
    Bool × Except RgaErr Nat :=
  if 0 < outCore ∧ outCore = outCore &&& 0x3 then
    let used1 := used0 ∨ (¬isAfbc ∧
      ¬is_pixel_stride_rga3_compat wStride hStride inI.rga_fmt)
    match verify_rga_frame_info_io_dynamic caps used1 inI outI with
    | .error e => (used1, .error e)
    | .ok _ => (used1, .ok (if used1 then 0x4 else outCore))
  else (used0, .ok outCore)

/-! ### The async pipeline of `ff_rkrga_filter_frame`

The FIFO holds one entry per submitted operation; entries are identified by
their submission index.  The hardware environment below carries, for each
operation, the result of the asynchronous blit call, the result of the
blocking `imsync` fence wait, the result of the downstream `filter_frame`
delivery callback, and the order in which the hardware completion fences
signal.  The fence-signal order (`fenceRank`) only affects how long each
blocking wait takes; the drain logic always pops the FIFO head and waits on
that entry's fence, so control flow never reads it. -/

/-- The hardware/downstream environment of one pipeline run. -/
structure PipeEnv where
  blitOk : Nat → Bool
  syncOk : Nat → Bool
  deliverOk : Nat → Bool
  fenceRank : Nat → Nat

/-- Observable pipeline events: a blocking fence wait, a wrapper unlock,
and a handoff of a completed destination buffer to the downstream
callback. -/
inductive PipeEv where
  | fenceWait (id : Nat)
  | unlock (id : Nat)
  | deliver (id : Nat)
deriving DecidableEq, Repr

/-- The ids delivered downstream within an event trace, in order. -/
def deliveredOf (evs : List PipeEv) : List Nat :=
  evs.filterMap (fun e => match e with
    | .deliver n => some n
    | _ => none)

/-- `rga_drain_fifo`: the teardown/reset drain.  Pops every entry, waits on
its fence (an `imsync` failure only logs a warning), unlocks its wrappers,
and discards the result without delivering; it cannot fail. -/
def rga_drain_fifo : List Nat → List Nat × List PipeEv
  | [] => ([], [])
  | n :: rest =>
    let r := rga_drain_fifo rest
    (r.1, .fenceWait n :: .unlock n :: r.2)

/-- The end-of-stream drain loop at the top of `ff_rkrga_filter_frame`
(`while (r->eof && av_fifo_read(...))`): pops every entry in FIFO order,
waits on its fence (failure only warns), unlocks, and hands the destination
buffer downstream; a failing downstream callback aborts with its error. -/
def eofDrainFifo (env : PipeEnv) : List Nat → Except RgaErr (List Nat × List PipeEv)
  | [] => .ok ([], [])
  | n :: rest =>
    if env.deliverOk n then
      match eofDrainFifo env rest with
      | .error e => .error e
      | .ok (f, evs) =>
        .ok (f, .fenceWait n :: .unlock n :: .deliver n :: evs)
    else .error .downstream

/-- The steady-state tail of `ff_rkrga_filter_frame` for one successfully
built frame: the async blit (failure aborts without enqueuing), the FIFO
push, and the "Sync & Retrieve" drain-over-depth step that pops, waits,
unlocks and delivers exactly one entry when the FIFO occupancy exceeds
`r->async_depth`.  Returns the new FIFO and the id delivered in this call,
if any. -/
def ffRkrgaFilterFrameStep (env : PipeEnv) (depth : Nat) (fifo : List Nat)
    (id : Nat) : Except RgaErr (List Nat × Option Nat) :=
  if ¬env.blitOk id then .error .EXTERNAL
  else
    let fifo1 := fifo ++ [id]
    if depth < fifo1.length then
      match fifo1 with
      | [] => .ok ([], none)
      | h :: t =>
        if ¬env.syncOk h then .error .EXTERNAL
        else if ¬env.deliverOk h then .error .downstream
        else .ok (t, some h)
    else .ok (fifo1, none)

/-- Runs a sequence of frame submissions through the steady-state path,
returning the final FIFO and the per-submission delivery outcomes. -/
def runSteady (env : PipeEnv) (depth : Nat) (fifo : List Nat) :
    List Nat → Except RgaErr (List Nat × List (Option Nat))
  | [] => .ok (fifo, [])
  | id :: rest =>
    match ffRkrgaFilterFrameStep env depth fifo id with
    | .error e => .error e
    | .ok (fifo1, d) =>
      match runSteady env depth fifo1 rest with
      | .error e => .error e
      | .ok (fifo2, ds) => .ok (fifo2, d :: ds)

/-- A full session: every submission through the steady-state path starting
from an empty FIFO, then the end-of-stream drain.  Returns the ids handed
to the downstream callback, in handoff order. -/
def ffRkrgaRunAll (env : PipeEnv) (depth : Nat) (subs : List Nat) :
    Except RgaErr (List Nat) :=
  match runSteady env depth [] subs with
  | .error e => .error e
  | .ok (fifo, ds) =>
    match eofDrainFifo env fifo with
    | .error e => .error e
    | .ok (_, evs) => .ok (ds.reduceOption ++ deliveredOf evs)

/-- The `do_overlay` decision at the top of `ff_rkrga_filter_frame`. -/
def doOverlay (nbInputs : Nat) (valid patLinked patRef : Bool) : Bool :=
  decide (1 < nbInputs) && valid && patLinked && patRef

/-- The blend word written into the source descriptor by `submit_frame`
(`info.blend` on the `nb_link == 0` path). -/
def submitSrcBlend (do_overlay pat_preproc : Bool) (blend_mode : Nat) : Nat :=
  if do_overlay && !pat_preproc then blend_mode else 0

/-! ### Sample data used by concrete instantiations -/

/-- An environment in which every blit, fence wait and downstream delivery
succeeds. -/
def constEnv : PipeEnv := ⟨fun _ => true, fun _ => true, fun _ => true, fun _ => 0⟩

/-- An `RGAFrameInfo` for an uncropped NV12 pad of the given active size. -/
def nv12Info (w h : Int) : RGAFrameInfo :=
  { rga_fmt := .YCbCr_420_SP, pix_fmt := NV12, act_x := 0, act_y := 0,
    act_w := w, act_h := h, uncompact_10b_msb := false, rotate_mode := 0,
    blend_mode := 0, crop := false, scheduler_core := 0,
    overlay_x := 0, overlay_y := 0 }

/-- An `RGAFrameInfo` for an uncropped RGBA pad of the given active size
(RGBA pads keep odd widths, since the YUV 2-alignment does not apply). -/
def rgbaInfo (w h : Int) : RGAFrameInfo :=
  { rga_fmt := .RGBA_8888, pix_fmt := RGBA, act_x := 0, act_y := 0,
    act_w := w, act_h := h, uncompact_10b_msb := false, rotate_mode := 0,
    blend_mode := 0, crop := false, scheduler_core := 0,
    overlay_x := 0, overlay_y := 0 }

/-- Capabilities of hardware exposing only the modern RGA3 generation
(also reached when a scheduling core inside mask 0x3 is pinned, which
clears every legacy flag at init). -/
def rga3OnlyCaps : RgaCaps := ⟨false, false, false, false, true⟩

/-- Capabilities of multicore hardware exposing RGA2 (Enhance variant) and
RGA3 together, as e.g. an RK3588 reports. -/
def rga23Caps : RgaCaps := ⟨true, false, true, false, true⟩


/-- A configuration whose driver version string names neither accelerator
generation. -/
def cfgNoHw : RKRGAInitConfig :=
  { rga_ver := "RGA_1.0"
    scheduler_core := 0, async_depth := 2, nbInputs := 1
    in0 := ⟨1920, 1080, NV12, true⟩
    in1 := ⟨1920, 1080, NV12, true⟩
    out := ⟨1280, 720, NV12, true⟩
    param := ⟨0, 255, false, 0, 0, 0, 0, 0, 0⟩ }
/-- A pad larger than the `3840*2160*3` pixel threshold. -/
def bigLink : RGALink := ⟨7680, 4320, NV12, true⟩

/-- The `RGAFrameInfo` that `fill_rga_frame_info_by_link` builds for
`bigLink`. -/
def bigLinkInfo : RGAFrameInfo :=
  { rga_fmt := .YCbCr_420_SP, pix_fmt := NV12, act_x := 0, act_y := 0,
    act_w := 7680, act_h := 4320, uncompact_10b_msb := false,
    rotate_mode := 0, blend_mode := 0, crop := false, scheduler_core := 0,
    overlay_x := 0, overlay_y := 0 }

/-- An RGBA pad with the modern unit's minimum active width on both sides. -/
def src68 : RGAFrameInfo := rgbaInfo 68 68

end RKRGA

deriving instance DecidableEq for Except

namespace RKRGA
open AVPixelFormat RgaSurfFormat

/-- C8: draining twice in a row with no submissions in between is a no-op
the second time and never errors: `rga_drain_fifo` leaves the FIFO empty, so
a second call performs no fence wait, no unlock and no delivery; likewise a
successful end-of-stream drain leaves a state on which a second call
succeeds with no events at all. -/
theorem c8_drain_all_idempotent :
    (∀ fifo : List Nat,
      rga_drain_fifo (rga_drain_fifo fifo).1 = ((rga_drain_fifo fifo).1, [])) ∧
    (∀ (env : PipeEnv) (fifo fifo' : List Nat) (evs : List PipeEv),
      eofDrainFifo env fifo = .ok (fifo', evs) →
      eofDrainFifo env fifo' = .ok (fifo', [])) := by
  constructor
  · intro fifo
    have h : (rga_drain_fifo fifo).1 = [] := by
      induction fifo with
      | nil => rfl
      | cons n rest ih => simpa [rga_drain_fifo] using ih
    rw [h]; rfl
  · intro env fifo fifo' evs h
    have h' : fifo' = [] := by
      induction fifo generalizing evs with
      | nil =>
        simp only [eofDrainFifo, Except.ok.injEq, Prod.mk.injEq] at h
        exact h.1.symm
      | cons n rest ih =>
        by_cases hd : env.deliverOk n
        · simp only [eofDrainFifo, hd, if_pos] at h
          revert h
          cases he : eofDrainFifo env rest with
          | error e => intro h; cases h
          | ok p =>
            intro h
            obtain ⟨f2, evs2⟩ := p
            rw [Except.ok.injEq, Prod.mk.injEq] at h
            obtain ⟨h1, -⟩ := h
            exact ih evs2 (h1 ▸ he)
        · simp [eofDrainFifo, hd] at h
    subst h'; rfl

theorem c8_witness :
    rga_drain_fifo ([] : List Nat) = ([], []) ∧
    eofDrainFifo constEnv [] = .ok ([], []) :=
  ⟨c8_drain_all_idempotent.1 [7],
   c8_drain_all_idempotent.2 constEnv [7] []
     [.fenceWait 7, .unlock 7, .deliver 7] (by decide)⟩

/-- C7: if the driver version string names neither the legacy (RGA2) nor
the modern (RGA3) accelerator generation, `ff_rkrga_init` fails with the
hard non-recoverable `ENOSYS` error; the error return precedes every
allocation in the model, so no pipeline state is produced. -/
theorem c7_no_hw_init_fails : ∀ cfg : RKRGAInitConfig,
    ¬(detectRgaCaps cfg.rga_ver).has_rga2 →
    ¬(detectRgaCaps cfg.rga_ver).has_rga3 →
    ffRkrgaInit cfg = .error .ENOSYS := by
  intro cfg h2 h3
  unfold ffRkrgaInit
  rw [if_pos]
  simp only [Bool.or_eq_true, not_or]
  exact ⟨h2, h3⟩

theorem c7_witness : ffRkrgaInit cfgNoHw = .error .ENOSYS :=
  c7_no_hw_init_fails cfgNoHw (by decide) (by decide)

/-- C10: any input or output pad whose width times height exceeds
`3840*2160*3` pixels silently clamps the threaded `async_depth` to
`min depth 1` (hence to at most 1, overriding any larger configured depth),
while a pad at or below the threshold leaves the depth unchanged. -/
theorem c10_async_depth_cap :
    ∀ (depth : Nat) (link : RGALink) (nb : Nat) (isIn : Bool)
      (info : RGAFrameInfo) (d' : Nat),
    fill_rga_frame_info_by_link depth link nb isIn = .ok (info, d') →
    (3840 * 2160 * 3 < link.w * link.h → d' = min depth 1 ∧ d' ≤ 1) ∧
    (link.w * link.h ≤ 3840 * 2160 * 3 → d' = depth) := by
  intro depth link nb isIn info d' h
  simp only [fill_rga_frame_info_by_link] at h
  split at h
  · cases h
  · split at h
    · cases h
    · rw [Except.ok.injEq, Prod.mk.injEq] at h
      obtain ⟨-, hd⟩ := h
      constructor
      · intro hlt
        rw [if_pos hlt] at hd
        refine ⟨hd.symm, ?_⟩
        omega
      · intro hle
        rw [if_neg (by omega)] at hd
        exact hd.symm

theorem c10_witness :
    fill_rga_frame_info_by_link 4 bigLink 0 true = .ok (bigLinkInfo, 1) ∧
    (1 : Nat) = min 4 1 :=
  ⟨by decide,
   ((c10_async_depth_cap 4 bigLink 0 true bigLinkInfo 1 (by decide)).1 (by decide)).1⟩

set_option maxRecDepth 8192 in
/-- C6: for a requested global alpha strictly between 0 and 255, the
computed blend word carries the alpha value in bits 16-23 (the foreground
global-alpha multiplier) and 0xff in bits 24-31 (the background
multiplier), over base mode 0x4 plus bit 12 when the overlay format
carries an alpha channel; for alpha outside that open range the blend mode
is the fixed constant 0x504 when the overlay format has alpha and 0x501
otherwise.  (Alpha is bounded by 255 per the filter's option range.) -/
theorem c6_blend_mode_alpha : ∀ (premult : Bool) (alpha : Nat), alpha ≤ 255 →
    ((0 < alpha ∧ alpha < 255) →
      ((computeBlendMode premult alpha >>> 16) &&& 0xff = alpha ∧
       (computeBlendMode premult alpha >>> 24) &&& 0xff = 0xff ∧
       computeBlendMode premult alpha &&& 0xffff =
         (if premult then 0x4 ||| (1 <<< 12) else 0x4))) ∧
    (¬(0 < alpha ∧ alpha < 255) →
      computeBlendMode premult alpha = if premult then 0x504 else 0x501) := by
  decide

theorem c6_witness :
    (0 < 128 ∧ 128 < 255) ∧
    ((computeBlendMode true 128 >>> 16) &&& 0xff = 128 ∧
     (computeBlendMode true 128 >>> 24) &&& 0xff = 0xff ∧
     computeBlendMode true 128 &&& 0xffff = (if true then 0x4 ||| (1 <<< 12) else 0x4)) :=
  ⟨by decide, (c6_blend_mode_alpha true 128 (by decide)).1 (by decide)⟩

end RKRGA

namespace RKRGA

lemma runSteady_partition (env : PipeEnv) (depth : Nat)
    (hb : ∀ n, env.blitOk n = true) (hs : ∀ n, env.syncOk n = true)
    (hd : ∀ n, env.deliverOk n = true) :
    ∀ (subs fifo : List Nat), ∃ f' tr,
      runSteady env depth fifo subs = .ok (f', tr) ∧
      tr.reduceOption ++ f' = fifo ++ subs := by
  intro subs
  induction subs with
  | nil => intro fifo; exact ⟨fifo, [], rfl, by simp⟩
  | cons id rest ih =>
    intro fifo
    by_cases hlen : depth < (fifo ++ [id]).length
    · obtain ⟨a, t, he⟩ : ∃ a t, fifo ++ [id] = a :: t := by
        cases hfi : fifo ++ [id] with
        | nil => exact absurd hfi (by simp)
        | cons a b => exact ⟨a, b, rfl⟩
      have hlen' : depth < t.length + 1 := by
        have := hlen
        rw [he] at this
        simpa using this
      have hstep : ffRkrgaFilterFrameStep env depth fifo id = .ok (t, some a) := by
        simp [ffRkrgaFilterFrameStep, hb, hs, hd, he, hlen']
      obtain ⟨f', tr, hrun, hpart⟩ := ih t
      refine ⟨f', some a :: tr, ?_, ?_⟩
      · simp [runSteady, hstep, hrun]
      · have hfix : fifo ++ id :: rest = a :: (t ++ rest) := by
          rw [show fifo ++ id :: rest = (fifo ++ [id]) ++ rest by simp, he]; rfl
        simp [hfix, hpart]
    · have hlen' : ¬depth < fifo.length + 1 := by simpa using hlen
      have hstep : ffRkrgaFilterFrameStep env depth fifo id = .ok (fifo ++ [id], none) := by
        simp [ffRkrgaFilterFrameStep, hb, hlen']
      obtain ⟨f', tr, hrun, hpart⟩ := ih (fifo ++ [id])
      refine ⟨f', none :: tr, ?_, ?_⟩
      · simp [runSteady, hstep, hrun]
      · simpa [List.append_assoc] using hpart

lemma eofDrain_all (env : PipeEnv) (hd : ∀ n, env.deliverOk n = true) :
    ∀ fifo : List Nat, ∃ evs,
      eofDrainFifo env fifo = .ok ([], evs) ∧ deliveredOf evs = fifo := by
  intro fifo
  induction fifo with
  | nil => exact ⟨[], rfl, rfl⟩
  | cons n rest ih =>
    obtain ⟨evs, he, hdel⟩ := ih
    refine ⟨.fenceWait n :: .unlock n :: .deliver n :: evs, ?_, ?_⟩
    · simp [eofDrainFifo, hd, he]
    · simp only [deliveredOf, List.filterMap_cons] at hdel ⊢
      simp [hdel]

/-- C1: for every sequence of successfully submitted operations (all blits,
fence waits and downstream deliveries succeeding), the completed output
buffers are handed to the downstream callback in exactly the submission
order, through the steady-state drain-over-depth path followed by the
end-of-stream drain.  The environment - including `fenceRank`, the order in
which the completion fences signal - is universally quantified: the drain
logic always pops the FIFO head and blocks on that entry's fence, so the
delivery order never depends on fence-completion order. -/
theorem c1_fifo_delivery_in_submission_order :
    ∀ (env : PipeEnv) (depth : Nat) (subs : List Nat),
    (∀ n, env.blitOk n = true) → (∀ n, env.syncOk n = true) →
    (∀ n, env.deliverOk n = true) →
    ffRkrgaRunAll env depth subs = .ok subs := by
  intro env depth subs hb hs hd
  obtain ⟨f', tr, hrun, hpart⟩ := runSteady_partition env depth hb hs hd subs []
  obtain ⟨evs, he, hdel⟩ := eofDrain_all env hd f'
  simp only [ffRkrgaRunAll, hrun, he]
  simpa [hdel] using hpart

theorem c1_witness :
    ffRkrgaRunAll constEnv 2 [1, 2, 3] = .ok [1, 2, 3] :=
  c1_fifo_delivery_in_submission_order constEnv 2 [1, 2, 3]
    (fun _ => rfl) (fun _ => rfl) (fun _ => rfl)

/-- C2: (i) on every successful init the in-flight FIFO capacity is the
configured (possibly clamped) `async_depth + 1`; (ii) after each
submission the drain-over-depth step pops and delivers exactly one entry -
the FIFO head - if and only if the occupancy after the push exceeds the
configured depth; (iii) for depth 2 and five consecutive submissions,
exactly three deliveries occur interleaved with the submissions (the first
after the third submission) and the remaining two entries are delivered
only by the end-of-stream drain. -/
theorem c2_depth_gated_drain :
    (∀ (cfg : RKRGAInitConfig) (st : RKRGAInitState),
      ffRkrgaInit cfg = .ok st → st.fifoCapacity = st.async_depth + 1) ∧
    (∀ (env : PipeEnv) (depth : Nat) (fifo : List Nat) (id : Nat)
       (f' : List Nat) (d : Option Nat),
      ffRkrgaFilterFrameStep env depth fifo id = .ok (f', d) →
      ((d.isSome = true ↔ depth < fifo.length + 1) ∧
       (∀ x, d = some x → x :: f' = fifo ++ [id]) ∧
       (d = none → f' = fifo ++ [id]))) ∧
    (∀ env : PipeEnv,
      (∀ n, env.blitOk n = true) → (∀ n, env.syncOk n = true) →
      (∀ n, env.deliverOk n = true) →
      (runSteady env 2 [] [1, 2, 3, 4, 5] =
        .ok ([4, 5], [none, none, some 1, some 2, some 3]) ∧
       eofDrainFifo env [4, 5] =
        .ok ([], [.fenceWait 4, .unlock 4, .deliver 4,
                  .fenceWait 5, .unlock 5, .deliver 5]))) := by
  refine ⟨?_, ?_, ?_⟩
  · intro cfg st h
    simp only [ffRkrgaInit] at h
    split at h
    · cases h
    · split at h
      · cases h
      · split at h
        · cases h
        · split at h
          · cases h
          · split at h
            · cases h
            · injection h with h2
              subst h2
              rfl
  · intro env depth fifo id f' d h
    simp only [ffRkrgaFilterFrameStep] at h
    split at h
    · cases h
    · rename_i hblit
      split at h
      · rename_i hover
        split at h
        · rename_i heq
          exact absurd heq (by simp)
        · rename_i a t heq
          split at h
          · cases h
          · split at h
            · cases h
            · injection h with h'
              injection h' with h1 h2
              subst h1; subst h2
              refine ⟨?_, ?_, ?_⟩
              · simp only [Option.isSome_some, true_iff]
                simpa [List.length_append] using hover
              · intro x hx
                injection hx with hx; subst hx
                exact heq.symm
              · intro hn; cases hn
      · rename_i hover
        injection h with h'
        injection h' with h1 h2
        subst h1; subst h2
        refine ⟨?_, ?_, ?_⟩
        · simp only [Option.isSome_none, false_iff]
          simpa using hover
        · intro x hx; cases hx
        · intro _; rfl
  · intro env hb hs hd
    constructor
    · simp [runSteady, ffRkrgaFilterFrameStep, hb, hs, hd]
    · simp [eofDrainFifo, hd]

theorem c2_witness :
    runSteady constEnv 2 [] [1, 2, 3, 4, 5] =
      .ok ([4, 5], [none, none, some 1, some 2, some 3]) :=
  (c2_depth_gated_drain.2.2 constEnv (fun _ => rfl) (fun _ => rfl) (fun _ => rfl)).1

/-- C3 is false as stated: with a scheduling core pinned inside the modern
mask (core 1, which cleared the legacy capability flags at init), an NV12
frame whose derived stride 100 fails the 16-pixel divisibility requirement
does set `is_rga2_used`, but the dynamic I/O re-validation then fails
(`ENOSYS`: RGA2 is absent), the submission errors out, and the scheduler
core is never rewritten to 0x4. -/
theorem c3_counterexample_stride_fallback :
    submitFrameStrideFallback rga3OnlyCaps false 1 100 68 false
      (nv12Info 1920 1080) (nv12Info 1920 1080) = (true, .error .ENOSYS) ∧
    (submitFrameStrideFallback rga3OnlyCaps false 1 100 68 false
      (nv12Info 1920 1080) (nv12Info 1920 1080)).2 ≠ .ok 0x4 := by
  constructor
  · decide
  · decide

/-- C3 (amended): while the resolved core exclusively targets the modern
generation, a non-AFBC frame whose derived strides fail the per-format
divisibility requirement permanently records the legacy fallback
(`is_rga2_used` set, persisted in the context even on failure); the
scheduler core is rewritten to 0x4 exactly when the dynamic I/O
re-validation passes, and otherwise the submission fails with that
validation error and the core is left unchanged; frames whose strides
satisfy the requirement (or are AFBC-compressed) leave the fallback flag
unchanged and can only return the unchanged core. -/
theorem c3_stride_fallback_amended :
    ∀ (caps : RgaCaps) (outCore : Nat) (ws hs : Int) (isAfbc : Bool)
      (inI outI : RGAFrameInfo),
    0 < outCore → outCore = outCore &&& 0x3 →
    ((¬isAfbc ∧ ¬is_pixel_stride_rga3_compat ws hs inI.rga_fmt) →
      ((submitFrameStrideFallback caps false outCore ws hs isAfbc inI outI).1 = true ∧
       (verify_rga_frame_info_io_dynamic caps true inI outI = .ok () →
         (submitFrameStrideFallback caps false outCore ws hs isAfbc inI outI).2 = .ok 0x4) ∧
       (∀ e, verify_rga_frame_info_io_dynamic caps true inI outI = .error e →
         (submitFrameStrideFallback caps false outCore ws hs isAfbc inI outI).2 = .error e))) ∧
    ((isAfbc ∨ is_pixel_stride_rga3_compat ws hs inI.rga_fmt = true) →
      ((submitFrameStrideFallback caps false outCore ws hs isAfbc inI outI).1 = false ∧
       (∀ c, (submitFrameStrideFallback caps false outCore ws hs isAfbc inI outI).2 = .ok c →
         c = outCore))) := by
  intro caps outCore ws hs isAfbc inI outI h1 h2
  constructor
  · rintro ⟨ha, hc⟩
    have key : submitFrameStrideFallback caps false outCore ws hs isAfbc inI outI =
        (true, match verify_rga_frame_info_io_dynamic caps true inI outI with
               | .error e => .error e
               | .ok _ => .ok 0x4) := by
      unfold submitFrameStrideFallback
      rw [if_pos ⟨h1, h2⟩]
      simp [ha, hc]
      cases verify_rga_frame_info_io_dynamic caps true inI outI <;> rfl
    refine ⟨by rw [key], ?_, ?_⟩
    · intro hio
      rw [key, hio]
    · intro e hio
      rw [key, hio]
  · intro hcompat
    have hnu : ¬(false = true ∨ (¬isAfbc = true ∧
        ¬is_pixel_stride_rga3_compat ws hs inI.rga_fmt = true)) := by
      rcases hcompat with hx | hx
      · rintro (h' | ⟨ha', -⟩)
        · exact absurd h' (by simp)
        · exact ha' hx
      · rintro (h' | ⟨-, hc'⟩)
        · exact absurd h' (by simp)
        · exact hc' hx
    have key : submitFrameStrideFallback caps false outCore ws hs isAfbc inI outI =
        (false, match verify_rga_frame_info_io_dynamic caps false inI outI with
                | .error e => .error e
                | .ok _ => .ok outCore) := by
      unfold submitFrameStrideFallback
      rw [if_pos ⟨h1, h2⟩]
      have hbool : (!isAfbc && !is_pixel_stride_rga3_compat ws hs inI.rga_fmt) = false := by
        rcases hcompat with hx | hx <;> simp [hx]
      have hif : ¬(isAfbc = false ∧ is_pixel_stride_rga3_compat ws hs inI.rga_fmt = false) := by
        rcases hcompat with hx | hx <;> simp [hx]
      simp [hbool, hif]
      cases verify_rga_frame_info_io_dynamic caps false inI outI <;> rfl
    refine ⟨by rw [key], ?_⟩
    intro c hc
    rw [key] at hc
    revert hc
    cases hio : verify_rga_frame_info_io_dynamic caps false inI outI with
    | error e =>
      intro hc
      cases hc
    | ok u =>
      intro hc
      injection hc with hc
      exact hc.symm

/-- Concrete application of the amended C3 theorem: on multicore RGA2+RGA3
hardware with the prioritized 0x3 core, an NV12 frame with incompatible
stride 100 forces the legacy fallback and, the re-validation passing, the
scheduler core is rewritten to 0x4. -/
theorem c3_witness :
    (submitFrameStrideFallback rga23Caps false 3 100 68 false
      (nv12Info 1920 1080) (nv12Info 1920 1080)).1 = true ∧
    (submitFrameStrideFallback rga23Caps false 3 100 68 false
      (nv12Info 1920 1080) (nv12Info 1920 1080)).2 = .ok 0x4 := by
  have h := (c3_stride_fallback_amended rga23Caps 3 100 68 false
    (nv12Info 1920 1080) (nv12Info 1920 1080) (by decide) (by decide)).1
    ⟨by decide, by decide⟩
  exact ⟨h.1, h.2.1 (by decide)⟩

/-- C9: overlay blending is gated on the requested (unclamped) overlay
offset lying strictly inside the primary's active area minus a 2-pixel
margin on each axis; the stored offsets are the requested ones clamped to
be non-negative; and when the margin test fails, `do_overlay` is false, so
the frame is processed as a single-input transform - no pattern operand and
a zero blend word - without error. -/
theorem c9_overlay_offset_gate :
    ∀ (in0 in1 : RGAFrameInfo) (p : RKRGAParamM) (patLinked patRef : Bool),
    ((initOverlaySetup in0 in1 p).2 = true ↔
      (p.overlay_x < in0.act_w - 2 ∧ p.overlay_y < in0.act_h - 2)) ∧
    ((initOverlaySetup in0 in1 p).1.overlay_x = max p.overlay_x 0 ∧
     (initOverlaySetup in0 in1 p).1.overlay_y = max p.overlay_y 0) ∧
    ((initOverlaySetup in0 in1 p).2 = false →
      (doOverlay 2 (initOverlaySetup in0 in1 p).2 patLinked patRef = false ∧
       submitSrcBlend (doOverlay 2 (initOverlaySetup in0 in1 p).2 patLinked patRef)
         false in0.blend_mode = 0)) := by
  intro in0 in1 p pl pr
  refine ⟨by simp [initOverlaySetup], ⟨rfl, rfl⟩, ?_⟩
  intro hf
  rw [hf]
  exact ⟨rfl, rfl⟩

theorem c9_witness :
    ((initOverlaySetup (nv12Info 100 100) (nv12Info 50 50) ⟨0, 255, false, 0, 0, 0, 0, 99, 10⟩).2 = false) ∧
    doOverlay 2 (initOverlaySetup (nv12Info 100 100) (nv12Info 50 50)
      ⟨0, 255, false, 0, 0, 0, 0, 99, 10⟩).2 true true = false :=
  ⟨by decide,
   ((c9_overlay_offset_gate (nv12Info 100 100) (nv12Info 50 50)
      ⟨0, 255, false, 0, 0, 0, 0, 99, 10⟩ true true).2.2 (by decide)).1⟩

end RKRGA

namespace RKRGA
open AVPixelFormat RgaSurfFormat

/-- C4: the configuration-time scale-ratio bound is 8.0 exactly when the
legacy unit is used with the lite variant present, or the modern generation
is used with no legacy generation present, or the resolved scheduling core
is nonzero and contained in mask 0x3; in every other case it is 16.0; the
envelope check rejects with a hard `EINVAL` exactly the ratios outside
`[1/max, max]`; and every configuration accepted by
`verify_rga_frame_info` passes the envelope check at its resolved
`(is_rga2_used, scheduler_core)` pair. -/
theorem c4_scale_ratio_envelope :
    (∀ (caps : RgaCaps) (used : Bool) (sc : Nat),
      (scaleRatioMax caps used sc = 8 ↔
        ((used ∧ caps.has_rga2l) ∨ (¬used ∧ caps.has_rga3 ∧ ¬caps.has_rga2) ∨
         (sc ≠ 0 ∧ sc &&& 0x3 = sc))) ∧
      (scaleRatioMax caps used sc = 8 ∨ scaleRatioMax caps used sc = 16)) ∧
    (∀ (caps : RgaCaps) (used : Bool) (sc : Nat) (srw srh : ℚ),
      (verifyScaleEnvelope caps used sc srw srh = .error .EINVAL ↔
        (srw < 1 / scaleRatioMax caps used sc ∨ srw > scaleRatioMax caps used sc ∨
         srh < 1 / scaleRatioMax caps used sc ∨ srh > scaleRatioMax caps used sc)) ∧
      (¬(srw < 1 / scaleRatioMax caps used sc ∨ srw > scaleRatioMax caps used sc ∨
         srh < 1 / scaleRatioMax caps used sc ∨ srh > scaleRatioMax caps used sc) →
        verifyScaleEnvelope caps used sc srw srh = .ok (used, sc))) ∧
    (∀ (caps : RgaCaps) (sc0 : Nat) (used0 : Bool) (nb : Nat)
       (src dst : RGAFrameInfo) (pat : Option RGAFrameInfo)
       (used : Bool) (sc : Nat),
      verify_rga_frame_info caps sc0 used0 nb src dst pat = .ok (used, sc) →
      verifyScaleEnvelope caps used sc (ratioW src dst) (ratioH src dst) = .ok (used, sc)) := by
  refine ⟨?_, ?_, ?_⟩
  · intro caps used sc
    constructor
    · unfold scaleRatioMax
      split
      · rename_i hcond
        refine ⟨fun _ => ?_, fun _ => rfl⟩
        rcases hcond with hx | hx | hx
        · exact Or.inl hx
        · exact Or.inr (Or.inl hx)
        · exact Or.inr (Or.inr ⟨Nat.pos_iff_ne_zero.mp hx.1, hx.2.symm⟩)
      · rename_i hcond
        refine ⟨fun h8 => absurd h8 (by norm_num), fun hcl => absurd ?_ hcond⟩
        rcases hcl with hx | hx | hx
        · exact Or.inl hx
        · exact Or.inr (Or.inl hx)
        · exact Or.inr (Or.inr ⟨Nat.pos_iff_ne_zero.mpr hx.1, hx.2.symm⟩)
    · unfold scaleRatioMax
      split
      · exact Or.inl rfl
      · exact Or.inr rfl
  · intro caps used sc srw srh
    constructor
    · simp only [verifyScaleEnvelope]
      split
      · rename_i hcond
        simpa using hcond
      · rename_i hcond
        simpa using hcond
    · intro hn
      simp only [verifyScaleEnvelope]
      rw [if_neg hn]
  · intro caps sc0 used0 nb src dst pat used sc h
    simp only [verify_rga_frame_info] at h
    split at h
    · cases h
    split at h
    · cases h
    split at h
    · cases h
    split at h
    · cases h
    split at h
    · cases h
    split at h
    · cases h
    split at h
    · cases h
    split at h
    · cases h
    split at h
    · cases h
    simp only [verifyScaleEnvelope] at h ⊢
    split at h
    · cases h
    rename_i hcond
    injection h with hp
    rw [Prod.mk.injEq] at hp
    obtain ⟨h1, h2⟩ := hp
    subst h1
    subst h2
    rw [if_neg hcond]

theorem c4_witness :
    verify_rga_frame_info rga3OnlyCaps 0 false 1 src68 src68 none = .ok (false, 0) ∧
    verifyScaleEnvelope rga3OnlyCaps false 0 (ratioW src68 src68) (ratioH src68 src68) =
      .ok (false, 0) := by
  have hv : verify_rga_frame_info rga3OnlyCaps 0 false 1 src68 src68 none = .ok (false, 0) := by
    simp [verify_rga_frame_info, verify_rga_frame_info_io_dynamic, verifyScaleEnvelope,
      scaleRatioMax, verifyRga2Fallback, verifyResolveCore, ratioW, ratioH, src68, rgbaInfo,
      rga3OnlyCaps, rga2OnlyInputFmt, rga2OnlyOutputFmt, forcesRga2AsSrc, forcesRga2AsDst,
      patOutsideRga3, compDepth]
    norm_num
  exact ⟨hv, c4_scale_ratio_envelope.2.2 rga3OnlyCaps 0 false 1 src68 src68 none false 0 hv⟩

/-- C5 is false as stated: on hardware exposing both generations, a
configuration with active width 67 - one pixel below the modern unit's
minimum - does not fail at configure time; the validator falls back to the
legacy unit and accepts it, resolving the scheduler core to 0x4. -/
theorem c5_counterexample_min_width :
    verify_rga_frame_info rga23Caps 0 false 1 (rgbaInfo 67 68) (rgbaInfo 67 68) none
      = .ok (true, 4) := by
  simp [verify_rga_frame_info, verify_rga_frame_info_io_dynamic, verifyScaleEnvelope,
    scaleRatioMax, verifyRga2Fallback, verifyResolveCore, ratioW, ratioH, rgbaInfo,
    rga23Caps, rga2OnlyInputFmt, rga2OnlyOutputFmt, forcesRga2AsSrc, forcesRga2AsDst,
    patOutsideRga3, compDepth]
  norm_num

/-- C5 (amended): when the modern generation alone is present, a
configuration with active width exactly 68 is accepted and the same
configuration with width 67 fails at configure time with `ENOSYS`; when
the legacy generation is also present, the 67-pixel configuration instead
falls back to the legacy unit and is accepted.  Quantified over heights
within all units' envelopes. -/
theorem c5_min_width_amended :
    ∀ h : Int, 2 ≤ h → h ≤ 4096 →
    verify_rga_frame_info rga3OnlyCaps 0 false 1 (rgbaInfo 68 h) (rgbaInfo 68 h) none
      = .ok (false, 0) ∧
    verify_rga_frame_info rga3OnlyCaps 0 false 1 (rgbaInfo 67 h) (rgbaInfo 67 h) none
      = .error .ENOSYS ∧
    verify_rga_frame_info rga23Caps 0 false 1 (rgbaInfo 67 h) (rgbaInfo 67 h) none
      = .ok (true, 4) := by
  intro h h2 h4096
  have hQ : ((h : ℚ)) ≠ 0 := by
    have h0 : (0 : ℚ) < (h : ℚ) := by exact_mod_cast (by omega : (0 : Int) < h)
    exact ne_of_gt h0
  have hr : (h : ℚ) / (h : ℚ) = 1 := div_self hQ
  have hA : ¬(h > 8176) := by omega
  have hB : ¬(h < 2) := by omega
  have hC : ¬(h > 8128) := by omega
  have hD : ¬(h > 4096) := by omega
  refine ⟨?_, ?_, ?_⟩
  · simp [verify_rga_frame_info, verify_rga_frame_info_io_dynamic, verifyScaleEnvelope,
      scaleRatioMax, verifyRga2Fallback, verifyResolveCore, ratioW, ratioH, rgbaInfo,
      rga3OnlyCaps, rga2OnlyInputFmt, rga2OnlyOutputFmt, forcesRga2AsSrc, forcesRga2AsDst,
      patOutsideRga3, compDepth, hr, hA, hB, hC, hD]
    norm_num
  · simp [verify_rga_frame_info, verify_rga_frame_info_io_dynamic, verifyScaleEnvelope,
      scaleRatioMax, verifyRga2Fallback, verifyResolveCore, ratioW, ratioH, rgbaInfo,
      rga3OnlyCaps, rga2OnlyInputFmt, rga2OnlyOutputFmt, forcesRga2AsSrc, forcesRga2AsDst,
      patOutsideRga3, compDepth, hr, hA, hB, hC, hD]
  · simp [verify_rga_frame_info, verify_rga_frame_info_io_dynamic, verifyScaleEnvelope,
      scaleRatioMax, verifyRga2Fallback, verifyResolveCore, ratioW, ratioH, rgbaInfo,
      rga23Caps, rga2OnlyInputFmt, rga2OnlyOutputFmt, forcesRga2AsSrc, forcesRga2AsDst,
      patOutsideRga3, compDepth, hr, hA, hB, hC, hD]
    norm_num

theorem c5_witness :
    verify_rga_frame_info rga3OnlyCaps 0 false 1 (rgbaInfo 68 68) (rgbaInfo 68 68) none
      = .ok (false, 0) ∧
    verify_rga_frame_info rga3OnlyCaps 0 false 1 (rgbaInfo 67 68) (rgbaInfo 67 68) none
      = .error .ENOSYS :=
  ⟨(c5_min_width_amended 68 (by decide) (by decide)).1,
   (c5_min_width_amended 68 (by decide) (by decide)).2.1⟩

end RKRGA
